import Mathlib

/-!
Shallow embedding of the emu6502 instruction engine (src/cpu.rs,
src/instruction.rs, src/ram.rs).

Machine integers are modelled as `Nat` with explicit wrapping:
* u8 arithmetic wraps mod 256, u16 address arithmetic wraps mod 65536
  (`wadd8`, `wsub8`, `wadd16`, `wsub16` mirror Rust's `wrapping_add` /
  `wrapping_sub`; plain `+` is used where the Rust code uses plain `+`
  on values that cannot overflow their type).
* The decrements of the unsigned `remain_cycles` counter
  (`self.remain_cycles -= 1` in `CPU::step` and in the JSR and RTI arms
  of `OpCode::execute`) panic on underflow, so they are modelled as the
  fallible `decRemain` returning `Option`; likewise a missing dispatch
  entry in `CPU::step` panics, and `AddressingMode::fetch` /
  `AddressingMode::get_address` panic on unsupported modes.  All these
  fallible paths return `none`.
* The memory bus (`MemIO`) is a total byte store `Nat → Nat`; every bus
  access is additionally recorded in an event trace so that claims about
  "no bus read or write happens" are expressible.
-/

namespace Emu6502

/-- Status flags, mirroring `StatusFlag` in src/cpu.rs. -/
structure StatusFlag where
  c : Bool
  z : Bool
  i : Bool
  d : Bool
  b : Bool
  r : Bool
  v : Bool
  n : Bool
deriving DecidableEq

/-- `StatusFlag::default` in src/cpu.rs: everything false except `r`. -/
def StatusFlag.default : StatusFlag :=
  ⟨false, false, false, false, false, true, false, false⟩

/-- `StatusFlag::get_as_u8`: pack the eight flags into a byte,
C at bit 0 through N at bit 7. -/
def StatusFlag.get_as_u8 (f : StatusFlag) : Nat :=
  f.c.toNat + (f.z.toNat <<< 1) + (f.i.toNat <<< 2) + (f.d.toNat <<< 3)
    + (f.b.toNat <<< 4) + (f.r.toNat <<< 5) + (f.v.toNat <<< 6) + (f.n.toNat <<< 7)

/-- `StatusFlag::set_as_u8`: unpack a byte into the flags; the source
ignores bit 5 and forces `r = true`. -/
def StatusFlag.set_as_u8 (byte : Nat) : StatusFlag where
  c := (byte >>> 0) &&& 1 == 1
  z := (byte >>> 1) &&& 1 == 1
  i := (byte >>> 2) &&& 1 == 1
  d := (byte >>> 3) &&& 1 == 1
  b := (byte >>> 4) &&& 1 == 1
  r := true
  v := (byte >>> 6) &&& 1 == 1
  n := (byte >>> 7) &&& 1 == 1

/-- Register file and cycle counters, mirroring `CPU` in src/cpu.rs. -/
structure CPU where
  pc : Nat
  sp : Nat
  a : Nat
  x : Nat
  y : Nat
  flags : StatusFlag
  remain_cycles : Nat
  total_cycles : Nat
deriving DecidableEq

/-- A bus access performed through the `MemIO` collaborator. -/
inductive BusEvent where
  | read (addr : Nat)
  | write (addr : Nat) (val : Nat)
deriving DecidableEq

/-- Whole machine: CPU state, the byte store behind the bus, and the
trace of bus accesses (most recent first). -/
structure Machine where
  cpu : CPU
  mem : Nat → Nat
  trace : List BusEvent

/-- All cells of the store hold bytes (the Rust bus returns `u8`). -/
def MemWF (m : Nat → Nat) : Prop := ∀ addr, m addr < 256

/-- Pointwise store update used by bus writes. -/
def updateMem (m : Nat → Nat) (addr val : Nat) : Nat → Nat :=
  fun q => if q = addr then val else m q

/-- u8 `wrapping_add`. -/
def wadd8 (a b : Nat) : Nat := (a + b) % 256

/-- u8 `wrapping_sub`. -/
def wsub8 (a b : Nat) : Nat := (a + 256 - b % 256) % 256

/-- u16 `wrapping_add`. -/
def wadd16 (a b : Nat) : Nat := (a + b) % 65536

/-- u16 `wrapping_sub`. -/
def wsub16 (a b : Nat) : Nat := (a + 65536 - b % 65536) % 65536

/-- Raw bus read (`ram.read_byte` in Rust): no cycle is charged, the
access is traced. -/
def busRead (s : Machine) (addr : Nat) : Nat × Machine :=
  (s.mem addr, { s with trace := BusEvent.read addr :: s.trace })

/-- Raw bus write (`ram.write_byte`): no cycle is charged. -/
def busWrite (s : Machine) (addr val : Nat) : Machine :=
  { s with mem := updateMem s.mem addr val,
           trace := BusEvent.write addr val :: s.trace }

/-- `CPU::fetch_byte`: read at PC, advance PC (wrapping), one cycle. -/
def fetch_byte (s : Machine) : Nat × Machine :=
  let (byte, s1) := busRead s s.cpu.pc
  (byte, { s1 with cpu := { s1.cpu with
             pc := wadd16 s1.cpu.pc 1,
             remain_cycles := s1.cpu.remain_cycles + 1 } })

/-- `CPU::read_byte`: bus read plus one cycle. -/
def read_byte (s : Machine) (addr : Nat) : Nat × Machine :=
  let (byte, s1) := busRead s addr
  (byte, { s1 with cpu := { s1.cpu with
             remain_cycles := s1.cpu.remain_cycles + 1 } })

/-- `CPU::write_byte`: bus write plus one cycle. -/
def write_byte (s : Machine) (addr val : Nat) : Machine :=
  let s1 := busWrite s addr val
  { s1 with cpu := { s1.cpu with remain_cycles := s1.cpu.remain_cycles + 1 } }

/-- `CPU::push_to_stack`: write at `0x0100 + SP`, post-decrement SP
(wrapping), one extra cycle. -/
def push_to_stack (s : Machine) (val : Nat) : Machine :=
  let s1 := write_byte s (0x0100 + s.cpu.sp) val
  { s1 with cpu := { s1.cpu with
      sp := wsub8 s1.cpu.sp 1,
      remain_cycles := s1.cpu.remain_cycles + 1 } }

/-- `CPU::pull_from_stack`: pre-increment SP (wrapping), read at
`0x0100 + SP`, one extra cycle. -/
def pull_from_stack (s : Machine) : Nat × Machine :=
  let sp1 := wadd8 s.cpu.sp 1
  let s0 := { s with cpu := { s.cpu with sp := sp1 } }
  let (byte, s1) := read_byte s0 (0x0100 + sp1)
  (byte, { s1 with cpu := { s1.cpu with
             remain_cycles := s1.cpu.remain_cycles + 1 } })

/-- `CPU::set_zero_and_negative_flag`. -/
def set_zero_and_negative_flag (s : Machine) (byte : Nat) : Machine :=
  { s with cpu := { s.cpu with flags := { s.cpu.flags with
      z := byte == 0,
      n := (byte >>> 7) &&& 1 == 1 } } }

/-- `CPU::set_accumulator`. -/
def set_accumulator (s : Machine) (byte : Nat) : Machine :=
  set_zero_and_negative_flag { s with cpu := { s.cpu with a := byte } } byte

/-- `CPU::set_index_x`. -/
def set_index_x (s : Machine) (byte : Nat) : Machine :=
  set_zero_and_negative_flag { s with cpu := { s.cpu with x := byte } } byte

/-- `CPU::set_index_y`. -/
def set_index_y (s : Machine) (byte : Nat) : Machine :=
  set_zero_and_negative_flag { s with cpu := { s.cpu with y := byte } } byte

/-- Add n internal cycles (`self.remain_cycles += n`). -/
def addCycles (s : Machine) (k : Nat) : Machine :=
  { s with cpu := { s.cpu with remain_cycles := s.cpu.remain_cycles + k } }

/-- `self.remain_cycles -= 1` on the unsigned counter: fails (panics)
on underflow. -/
def decRemain (s : Machine) : Option Machine :=
  if s.cpu.remain_cycles = 0 then none
  else some { s with cpu := { s.cpu with
                remain_cycles := s.cpu.remain_cycles - 1 } }

/-- u8 `overflowing_add`. -/
def ovadd8 (a b : Nat) : Nat × Bool := ((a + b) % 256, decide (256 ≤ a + b))

/-- u8 `overflowing_sub` (faithful for byte-sized arguments). -/
def ovsub8 (a b : Nat) : Nat × Bool := ((a + 256 - b) % 256, decide (a < b))

/-- The thirteen addressing modes of `AddressingMode` in
src/instruction.rs. -/
inductive AddressingMode where
  | Implied
  | Accumulator
  | Immediate
  | ZeroPage
  | ZeroPageX
  | ZeroPageY
  | Relative
  | Absolute
  | AbsoluteX
  | AbsoluteY
  | Indirect
  | IndexedIndirect
  | IndirectIndexed
deriving DecidableEq

/-- `AddressingMode::get_address`: effective-address evaluator.
`none` models the `panic!` for Accumulator/Implied/Immediate. -/
def get_address (mode : AddressingMode) (s : Machine) : Option (Nat × Machine) :=
  match mode with
  | .ZeroPage =>
      let (b, s1) := fetch_byte s
      some (b, s1)
  | .ZeroPageX =>
      let s0 := addCycles s 1
      let (b, s1) := fetch_byte s0
      some (wadd8 b s1.cpu.x, s1)
  | .ZeroPageY =>
      let s0 := addCycles s 1
      let (b, s1) := fetch_byte s0
      some (wadd8 b s1.cpu.y, s1)
  | .Relative =>
      let (b, s1) := fetch_byte s
      some ((s1.cpu.pc + b + (if b < 128 then 0 else 65536 - 256)) % 65536, s1)
  | .Absolute =>
      let (lo, s1) := fetch_byte s
      let (hi, s2) := fetch_byte s1
      some (lo + (hi <<< 8), s2)
  | .AbsoluteX =>
      let (lo, s1) := fetch_byte s
      let (hi, s2) := fetch_byte s1
      some (wadd16 (lo + (hi <<< 8)) s2.cpu.x, s2)
  | .AbsoluteY =>
      let (lo, s1) := fetch_byte s
      let (hi, s2) := fetch_byte s1
      some (wadd16 (lo + (hi <<< 8)) s2.cpu.y, s2)
  | .Indirect =>
      let (lo, s1) := fetch_byte s
      let (hi, s2) := fetch_byte s1
      let ind := lo + (hi <<< 8)
      let (al, s3) := read_byte s2 ind
      let (ah, s4) := read_byte s3 ((ind &&& 0xFF00) + wadd8 (ind % 256) 1)
      some (al + (ah <<< 8), s4)
  | .IndexedIndirect =>
      let (b, s1) := fetch_byte s
      let ind := wadd8 b s1.cpu.x
      let (al, s2) := read_byte s1 ind
      let (ah, s3) := read_byte s2 (wadd8 ind 1)
      some (al + (ah <<< 8), addCycles s3 1)
  | .IndirectIndexed =>
      let (b, s1) := fetch_byte s
      let (al, s2) := read_byte s1 b
      let (ah, s3) := read_byte s2 (wadd8 b 1)
      some (wadd16 (al + (ah <<< 8)) s3.cpu.y, s3)
  | .Accumulator | .Implied | .Immediate => none

/-- `AddressingMode::fetch`: operand-value evaluator.  `none` models the
`panic!` for Implied/Relative/Indirect.  The AbsoluteX/AbsoluteY arms
compare the page of the pre-fetch PC (`before_pc` in the source) with
the page of the effective address to decide the extra cycle; the
IndirectIndexed arm compares the un-indexed pointer with the effective
address. -/
def fetchOp (mode : AddressingMode) (s : Machine) : Option (Nat × Machine) :=
  match mode with
  | .Accumulator => some (s.cpu.a, s)
  | .Immediate => some (fetch_byte s)
  | .ZeroPage | .ZeroPageX | .ZeroPageY | .Absolute | .IndexedIndirect =>
      match get_address mode s with
      | some (addr, s1) => some (read_byte s1 addr)
      | none => none
  | .AbsoluteX =>
      let before_pc := s.cpu.pc
      match get_address .AbsoluteX s with
      | some (addr, s1) =>
          let s2 := if before_pc &&& 0xFF00 ≠ addr &&& 0xFF00 then addCycles s1 1 else s1
          some (read_byte s2 addr)
      | none => none
  | .AbsoluteY =>
      let before_pc := s.cpu.pc
      match get_address .AbsoluteY s with
      | some (addr, s1) =>
          let s2 := if before_pc &&& 0xFF00 ≠ addr &&& 0xFF00 then addCycles s1 1 else s1
          some (read_byte s2 addr)
      | none => none
  | .IndirectIndexed =>
      let (b, s1) := fetch_byte s
      let (al, s2) := read_byte s1 b
      let (ah, s3) := read_byte s2 (wadd8 b 1)
      let addr := wadd16 (al + (ah <<< 8)) s3.cpu.y
      let s4 := if wsub16 addr s3.cpu.y &&& 0xFF00 ≠ addr &&& 0xFF00 then addCycles s3 1 else s3
      some (read_byte s4 addr)
  | .Implied | .Relative | .Indirect => none

/-- The instruction kinds of `Instruction` in src/instruction.rs
(official set plus the supported unofficial opcodes). -/
inductive Instruction where
  | LDA | LDX | LDY
  | STA | STX | STY
  | TAX | TAY | TXA | TYA | TSX | TXS
  | PHA | PLA | PHP | PLP
  | AND | EOR | ORA | BIT
  | ADC | SBC | CMP | CPX | CPY
  | INC | INX | INY | DEC | DEX | DEY
  | ASL | LSR | ROL | ROR
  | JMP | JSR | RTS
  | BCC | BCS | BNE | BEQ | BPL | BMI | BVC | BVS
  | CLC | CLD | CLI | CLV | SEC | SED | SEI
  | BRK | NOP | RTI
  | LAX | SAX | DCP | SKB | IGN
deriving DecidableEq

/-- `Officiality` in src/instruction.rs. -/
inductive Officiality where
  | Official
  | Unofficial
deriving DecidableEq

/-- `OpCode` in src/instruction.rs: a dispatch-table triple. -/
structure OpCode where
  ins : Instruction
  mode : AddressingMode
  off : Officiality
deriving DecidableEq

/-- Taken-branch helper shared by the eight branch arms: one extra
cycle, two more on page cross, then jump. -/
def branchTaken (s : Machine) (addr : Nat) : Machine :=
  let s2 := addCycles s 1
  let s3 := if s2.cpu.pc &&& 0xFF00 ≠ addr &&& 0xFF00 then addCycles s2 2 else s2
  { s3 with cpu := { s3.cpu with pc := addr } }

/-- Set the flags record wholesale. -/
def withFlags (s : Machine) (f : StatusFlag) : Machine :=
  { s with cpu := { s.cpu with flags := f } }

/-- `OpCode::execute` in src/instruction.rs, arm by arm.  `none` models
the panics: `.unwrap()` on an addressing-mode evaluator that does not
support the mode, and `remain_cycles -= 1` underflow (in the JSR and
RTI arms).  Plain `-`/`+` on the u16 PC in the JSR and RTS arms is
modelled as wrapping arithmetic. -/
def execute (ins : Instruction) (mode : AddressingMode) (s : Machine) : Option Machine :=
  match ins with
  | .LDA =>
      match fetchOp mode s with
      | some (b, s1) => some (set_accumulator s1 b)
      | none => none
  | .LDX =>
      match fetchOp mode s with
      | some (b, s1) => some (set_index_x s1 b)
      | none => none
  | .LDY =>
      match fetchOp mode s with
      | some (b, s1) => some (set_index_y s1 b)
      | none => none
  | .STA =>
      match get_address mode s with
      | some (addr, s1) => some (write_byte s1 addr s1.cpu.a)
      | none => none
  | .STX =>
      match get_address mode s with
      | some (addr, s1) => some (write_byte s1 addr s1.cpu.x)
      | none => none
  | .STY =>
      match get_address mode s with
      | some (addr, s1) => some (write_byte s1 addr s1.cpu.y)
      | none => none
  | .TAX => some (addCycles (set_index_x s s.cpu.a) 1)
  | .TAY => some (addCycles (set_index_y s s.cpu.a) 1)
  | .TXA => some (addCycles (set_accumulator s s.cpu.x) 1)
  | .TYA => some (addCycles (set_accumulator s s.cpu.y) 1)
  | .TSX => some (addCycles (set_index_x s s.cpu.sp) 1)
  | .TXS => some (addCycles { s with cpu := { s.cpu with sp := s.cpu.x } } 1)
  | .PHA => some (push_to_stack s s.cpu.a)
  | .PLA =>
      let (b, s1) := pull_from_stack s
      some (addCycles (set_accumulator s1 b) 1)
  | .PHP =>
      let byte := s.cpu.flags.get_as_u8 ||| 0b00110000
      some (push_to_stack s byte)
  | .PLP =>
      let (b, s1) := pull_from_stack s
      some (addCycles (withFlags s1 (StatusFlag.set_as_u8 (b &&& 0b11001111))) 1)
  | .AND =>
      match fetchOp mode s with
      | some (b, s1) => some (set_accumulator s1 (s1.cpu.a &&& b))
      | none => none
  | .EOR =>
      match fetchOp mode s with
      | some (b, s1) => some (set_accumulator s1 (s1.cpu.a ^^^ b))
      | none => none
  | .ORA =>
      match fetchOp mode s with
      | some (b, s1) => some (set_accumulator s1 (s1.cpu.a ||| b))
      | none => none
  | .BIT =>
      match fetchOp mode s with
      | some (b, s1) =>
          some (withFlags s1 { s1.cpu.flags with
            z := s1.cpu.a &&& b == 0,
            v := (b >>> 6) &&& 1 == 1,
            n := (b >>> 7) &&& 1 == 1 })
      | none => none
  | .ADC =>
      match fetchOp mode s with
      | some (m, s1) =>
          let a := s1.cpu.a
          let (r1, ov1) := ovadd8 a m
          let (r2, ov2) := ovadd8 r1 s1.cpu.flags.c.toNat
          let s2 := withFlags s1 { s1.cpu.flags with
            c := ov1 || ov2,
            v := (((a ^^^ r2) &&& 0x80) != 0) && (((m ^^^ r2) &&& 0x80) != 0) }
          some (set_accumulator s2 r2)
      | none => none
  | .SBC =>
      match fetchOp mode s with
      | some (m, s1) =>
          let a := s1.cpu.a
          let (r1, ov1) := ovsub8 a m
          let (r2, ov2) := ovsub8 r1 (!s1.cpu.flags.c).toNat
          let s2 := withFlags s1 { s1.cpu.flags with
            c := !(ov1 || ov2),
            v := (((a ^^^ m) &&& 0x80) != 0) && (((a ^^^ r2) &&& 0x80) != 0) }
          some (set_accumulator s2 r2)
      | none => none
  | .CMP =>
      match fetchOp mode s with
      | some (b, s1) =>
          some (withFlags s1 { s1.cpu.flags with
            c := decide (b ≤ s1.cpu.a),
            z := s1.cpu.a == b,
            n := (wsub8 s1.cpu.a b >>> 7) &&& 1 == 1 })
      | none => none
  | .CPX =>
      match fetchOp mode s with
      | some (b, s1) =>
          some (withFlags s1 { s1.cpu.flags with
            c := decide (b ≤ s1.cpu.x),
            z := s1.cpu.x == b,
            n := (wsub8 s1.cpu.x b >>> 7) &&& 1 == 1 })
      | none => none
  | .CPY =>
      match fetchOp mode s with
      | some (b, s1) =>
          some (withFlags s1 { s1.cpu.flags with
            c := decide (b ≤ s1.cpu.y),
            z := s1.cpu.y == b,
            n := (wsub8 s1.cpu.y b >>> 7) &&& 1 == 1 })
      | none => none
  | .INC =>
      match get_address mode s with
      | some (addr, s1) =>
          let (b, s2) := read_byte s1 addr
          let b2 := wadd8 b 1
          let s3 := set_zero_and_negative_flag (addCycles s2 1) b2
          some (write_byte s3 addr b2)
      | none => none
  | .INX => some (set_index_x (addCycles s 1) (wadd8 s.cpu.x 1))
  | .INY => some (set_index_y (addCycles s 1) (wadd8 s.cpu.y 1))
  | .DEC =>
      match get_address mode s with
      | some (addr, s1) =>
          let (b, s2) := read_byte s1 addr
          let b2 := wsub8 b 1
          let s3 := set_zero_and_negative_flag (addCycles s2 1) b2
          some (write_byte s3 addr b2)
      | none => none
  | .DEX => some (set_index_x (addCycles s 1) (wsub8 s.cpu.x 1))
  | .DEY => some (set_index_y (addCycles s 1) (wsub8 s.cpu.y 1))
  | .ASL =>
      let s0 := addCycles s 1
      match mode with
      | .Accumulator =>
          let b := s0.cpu.a
          let s1 := withFlags s0 { s0.cpu.flags with c := (b >>> 7) &&& 1 == 1 }
          some (set_accumulator s1 ((b <<< 1) % 256))
      | _ =>
          match get_address mode s0 with
          | some (addr, s1) =>
              let (b, s2) := read_byte s1 addr
              let s3 := withFlags s2 { s2.cpu.flags with c := (b >>> 7) &&& 1 == 1 }
              let b2 := (b <<< 1) % 256
              some (write_byte (set_zero_and_negative_flag s3 b2) addr b2)
          | none => none
  | .LSR =>
      let s0 := addCycles s 1
      match mode with
      | .Accumulator =>
          let b := s0.cpu.a
          let s1 := withFlags s0 { s0.cpu.flags with c := b &&& 1 == 1 }
          some (set_accumulator s1 (b >>> 1))
      | _ =>
          match get_address mode s0 with
          | some (addr, s1) =>
              let (b, s2) := read_byte s1 addr
              let s3 := withFlags s2 { s2.cpu.flags with c := b &&& 1 == 1 }
              let b2 := b >>> 1
              some (write_byte (set_zero_and_negative_flag s3 b2) addr b2)
          | none => none
  | .ROL =>
      let s0 := addCycles s 1
      match mode with
      | .Accumulator =>
          let b := s0.cpu.a
          let bit0 := s0.cpu.flags.c.toNat
          let s1 := withFlags s0 { s0.cpu.flags with c := (b >>> 7) &&& 1 == 1 }
          some (set_accumulator s1 (((b <<< 1) % 256) ||| bit0))
      | _ =>
          match get_address mode s0 with
          | some (addr, s1) =>
              let (b, s2) := read_byte s1 addr
              let bit0 := s2.cpu.flags.c.toNat
              let s3 := withFlags s2 { s2.cpu.flags with c := (b >>> 7) &&& 1 == 1 }
              let b2 := ((b <<< 1) % 256) ||| bit0
              some (write_byte (set_zero_and_negative_flag s3 b2) addr b2)
          | none => none
  | .ROR =>
      let s0 := addCycles s 1
      match mode with
      | .Accumulator =>
          let b := s0.cpu.a
          let bit7 := s0.cpu.flags.c.toNat <<< 7
          let s1 := withFlags s0 { s0.cpu.flags with c := b &&& 1 == 1 }
          some (set_accumulator s1 ((b >>> 1) ||| bit7))
      | _ =>
          match get_address mode s0 with
          | some (addr, s1) =>
              let (b, s2) := read_byte s1 addr
              let bit7 := s2.cpu.flags.c.toNat <<< 7
              let s3 := withFlags s2 { s2.cpu.flags with c := b &&& 1 == 1 }
              let b2 := (b >>> 1) ||| bit7
              some (write_byte (set_zero_and_negative_flag s3 b2) addr b2)
          | none => none
  | .JMP =>
      match get_address mode (addCycles s 1) with
      | some (addr, s1) => some { s1 with cpu := { s1.cpu with pc := addr } }
      | none => none
  | .JSR =>
      match get_address mode s with
      | some (addr, s1) =>
          let pc1 := wsub16 s1.cpu.pc 1
          let s2 := push_to_stack s1 (pc1 >>> 8)
          let s3 := push_to_stack s2 (pc1 &&& 0xFF)
          (decRemain s3).map fun s4 => { s4 with cpu := { s4.cpu with pc := addr } }
      | none => none
  | .RTS =>
      let (lo, s1) := pull_from_stack (addCycles s 1)
      let (hi, s2) := pull_from_stack s1
      some { s2 with cpu := { s2.cpu with pc := wadd16 (lo + (hi <<< 8)) 1 } }
  | .BCC =>
      match get_address mode s with
      | some (addr, s1) => some (if s1.cpu.flags.c = false then branchTaken s1 addr else s1)
      | none => none
  | .BCS =>
      match get_address mode s with
      | some (addr, s1) => some (if s1.cpu.flags.c = true then branchTaken s1 addr else s1)
      | none => none
  | .BNE =>
      match get_address mode s with
      | some (addr, s1) => some (if s1.cpu.flags.z = false then branchTaken s1 addr else s1)
      | none => none
  | .BEQ =>
      match get_address mode s with
      | some (addr, s1) => some (if s1.cpu.flags.z = true then branchTaken s1 addr else s1)
      | none => none
  | .BPL =>
      match get_address mode s with
      | some (addr, s1) => some (if s1.cpu.flags.n = false then branchTaken s1 addr else s1)
      | none => none
  | .BMI =>
      match get_address mode s with
      | some (addr, s1) => some (if s1.cpu.flags.n = true then branchTaken s1 addr else s1)
      | none => none
  | .BVC =>
      match get_address mode s with
      | some (addr, s1) => some (if s1.cpu.flags.v = false then branchTaken s1 addr else s1)
      | none => none
  | .BVS =>
      match get_address mode s with
      | some (addr, s1) => some (if s1.cpu.flags.v = true then branchTaken s1 addr else s1)
      | none => none
  | .CLC => some (withFlags (addCycles s 1) { s.cpu.flags with c := false })
  | .CLD => some (withFlags (addCycles s 1) { s.cpu.flags with d := false })
  | .CLI => some (withFlags (addCycles s 1) { s.cpu.flags with i := false })
  | .CLV => some (withFlags (addCycles s 1) { s.cpu.flags with v := false })
  | .SEC => some (withFlags (addCycles s 1) { s.cpu.flags with c := true })
  | .SED => some (withFlags (addCycles s 1) { s.cpu.flags with d := true })
  | .SEI => some (withFlags (addCycles s 1) { s.cpu.flags with i := true })
  | .BRK =>
      let pc0 := s.cpu.pc
      let s1 := push_to_stack s (pc0 >>> 8)
      let s2 := push_to_stack s1 (pc0 &&& 0xFF)
      let s3 := withFlags s2 { s2.cpu.flags with b := true }
      let s4 := push_to_stack s3 s3.cpu.flags.get_as_u8
      let s5 := withFlags s4 { s4.cpu.flags with i := true }
      let (lo, s6) := busRead s5 0xFFFE
      let (hi, s7) := busRead s6 0xFFFF
      -- Rust parses `lo as u16 + (hi as u16) << 8` as `(lo + hi) << 8`,
      -- and the u16 shift discards the bits above bit 15.
      some { s7 with cpu := { s7.cpu with pc := ((lo + hi) <<< 8) % 65536 } }
  | .NOP => some (addCycles s 1)
  | .RTI =>
      let (fb, s1) := pull_from_stack s
      let s2 := withFlags s1 { StatusFlag.set_as_u8 fb with b := false }
      let (lo, s3) := pull_from_stack s2
      let (hi, s4) := pull_from_stack s3
      decRemain { s4 with cpu := { s4.cpu with pc := lo + (hi <<< 8) } }
  | .LAX =>
      match fetchOp mode s with
      | some (b, s1) => some (set_index_x (set_accumulator s1 b) b)
      | none => none
  | .SAX =>
      match get_address mode s with
      | some (addr, s1) => some (write_byte s1 addr (s1.cpu.a &&& s1.cpu.x))
      | none => none
  | .DCP =>
      match get_address mode s with
      | some (addr, s1) =>
          let (b, s2) := read_byte s1 addr
          let b2 := wsub8 b 1
          let s3 := write_byte s2 addr b2
          let s4 := withFlags s3 { s3.cpu.flags with
            c := decide (b2 ≤ s3.cpu.a),
            z := s3.cpu.a == b2,
            n := (wsub8 s3.cpu.a b2 >>> 7) &&& 1 == 1 }
          some (addCycles s4 2)
      | none => none
  | .SKB =>
      match fetchOp mode s with
      | some (_, s1) => some s1
      | none => none
  | .IGN =>
      match fetchOp mode s with
      | some (_, s1) => some s1
      | none => none

/-- Total wrapper around `execute` for instruction/mode pairs whose
execution cannot fail; the default branch is never reached in the
theorems stated with it. -/
def executeD (ins : Instruction) (mode : AddressingMode) (s : Machine) : Machine :=
  (execute ins mode s).getD s

/-- `Interrupt` in src/cpu.rs. -/
inductive Interrupt where
  | NMI
  | Reset
  | IRQ
  | BRK
deriving DecidableEq

/-- `CPU::interrupt` in src/cpu.rs. -/
def interrupt (s : Machine) (kind : Interrupt) : Machine :=
  if kind = Interrupt.IRQ ∧ s.cpu.flags.i then s
  else
    let s1 :=
      if kind ≠ Interrupt.Reset then
        let sa := if kind ≠ Interrupt.BRK
                  then withFlags s { s.cpu.flags with b := false }
                  else s
        let sb := withFlags sa { sa.cpu.flags with r := true }
        let sc := push_to_stack sb (sb.cpu.pc >>> 8)
        let sd := push_to_stack sc (sc.cpu.pc &&& 0xFF)
        let se := push_to_stack sd sd.cpu.flags.get_as_u8
        withFlags se { se.cpu.flags with i := true }
      else s
    let vec : Nat :=
      match kind with
      | Interrupt.NMI => 0xFFFA
      | Interrupt.Reset => 0xFFFC
      | Interrupt.IRQ => 0xFFFE
      | Interrupt.BRK => 0xFFFE
    let s2 := { s1 with cpu := { s1.cpu with pc := vec } }
    let (lo, s3) := fetch_byte s2
    let (hi, s4) := fetch_byte s3
    { s4 with cpu := { s4.cpu with pc := (hi <<< 8) + lo } }

/-- Rows 0x00-0x0F of the `OPCODES` table in src/instruction.rs. -/
def OPCODES_0 : List (Option OpCode) := [
  some ⟨.BRK, .Implied, .Official⟩,
  some ⟨.ORA, .IndexedIndirect, .Official⟩,
  none,
  none,
  some ⟨.IGN, .ZeroPage, .Unofficial⟩,
  some ⟨.ORA, .ZeroPage, .Official⟩,
  some ⟨.ASL, .ZeroPage, .Official⟩,
  none,
  some ⟨.PHP, .Implied, .Official⟩,
  some ⟨.ORA, .Immediate, .Official⟩,
  some ⟨.ASL, .Accumulator, .Official⟩,
  none,
  some ⟨.IGN, .Absolute, .Unofficial⟩,
  some ⟨.ORA, .Absolute, .Official⟩,
  some ⟨.ASL, .Absolute, .Official⟩,
  none
]

/-- Rows 0x10-0x1F of the `OPCODES` table in src/instruction.rs. -/
def OPCODES_1 : List (Option OpCode) := [
  some ⟨.BPL, .Relative, .Official⟩,
  some ⟨.ORA, .IndirectIndexed, .Official⟩,
  none,
  none,
  some ⟨.IGN, .ZeroPageX, .Unofficial⟩,
  some ⟨.ORA, .ZeroPageX, .Official⟩,
  some ⟨.ASL, .ZeroPageX, .Official⟩,
  none,
  some ⟨.CLC, .Implied, .Official⟩,
  some ⟨.ORA, .AbsoluteY, .Official⟩,
  some ⟨.NOP, .Implied, .Unofficial⟩,
  none,
  some ⟨.IGN, .AbsoluteX, .Unofficial⟩,
  some ⟨.ORA, .AbsoluteX, .Official⟩,
  some ⟨.ASL, .AbsoluteX, .Official⟩,
  none
]

/-- Rows 0x20-0x2F of the `OPCODES` table in src/instruction.rs. -/
def OPCODES_2 : List (Option OpCode) := [
  some ⟨.JSR, .Absolute, .Official⟩,
  some ⟨.AND, .IndexedIndirect, .Official⟩,
  none,
  none,
  some ⟨.BIT, .ZeroPage, .Official⟩,
  some ⟨.AND, .ZeroPage, .Official⟩,
  some ⟨.ROL, .ZeroPage, .Official⟩,
  none,
  some ⟨.PLP, .Implied, .Official⟩,
  some ⟨.AND, .Immediate, .Official⟩,
  some ⟨.ROL, .Accumulator, .Official⟩,
  none,
  some ⟨.BIT, .Absolute, .Official⟩,
  some ⟨.AND, .Absolute, .Official⟩,
  some ⟨.ROL, .Absolute, .Official⟩,
  none
]

/-- Rows 0x30-0x3F of the `OPCODES` table in src/instruction.rs. -/
def OPCODES_3 : List (Option OpCode) := [
  some ⟨.BMI, .Relative, .Official⟩,
  some ⟨.AND, .IndirectIndexed, .Official⟩,
  none,
  none,
  some ⟨.IGN, .ZeroPageX, .Unofficial⟩,
  some ⟨.AND, .ZeroPageX, .Official⟩,
  some ⟨.ROL, .ZeroPageX, .Official⟩,
  none,
  some ⟨.SEC, .Implied, .Official⟩,
  some ⟨.AND, .AbsoluteY, .Official⟩,
  some ⟨.NOP, .Implied, .Unofficial⟩,
  none,
  some ⟨.IGN, .AbsoluteX, .Unofficial⟩,
  some ⟨.AND, .AbsoluteX, .Official⟩,
  some ⟨.ROL, .AbsoluteX, .Official⟩,
  none
]

/-- Rows 0x40-0x4F of the `OPCODES` table in src/instruction.rs. -/
def OPCODES_4 : List (Option OpCode) := [
  some ⟨.RTI, .Implied, .Official⟩,
  some ⟨.EOR, .IndexedIndirect, .Official⟩,
  none,
  none,
  some ⟨.IGN, .ZeroPage, .Unofficial⟩,
  some ⟨.EOR, .ZeroPage, .Official⟩,
  some ⟨.LSR, .ZeroPage, .Official⟩,
  none,
  some ⟨.PHA, .Implied, .Official⟩,
  some ⟨.EOR, .Immediate, .Official⟩,
  some ⟨.LSR, .Accumulator, .Official⟩,
  none,
  some ⟨.JMP, .Absolute, .Official⟩,
  some ⟨.EOR, .Absolute, .Official⟩,
  some ⟨.LSR, .Absolute, .Official⟩,
  none
]

/-- Rows 0x50-0x5F of the `OPCODES` table in src/instruction.rs. -/
def OPCODES_5 : List (Option OpCode) := [
  some ⟨.BVC, .Relative, .Official⟩,
  some ⟨.EOR, .IndirectIndexed, .Official⟩,
  none,
  none,
  some ⟨.IGN, .ZeroPageX, .Unofficial⟩,
  some ⟨.EOR, .ZeroPageX, .Official⟩,
  some ⟨.LSR, .ZeroPageX, .Official⟩,
  none,
  some ⟨.CLI, .Implied, .Official⟩,
  some ⟨.EOR, .AbsoluteY, .Official⟩,
  some ⟨.NOP, .Implied, .Unofficial⟩,
  none,
  some ⟨.IGN, .AbsoluteX, .Unofficial⟩,
  some ⟨.EOR, .AbsoluteX, .Official⟩,
  some ⟨.LSR, .AbsoluteX, .Official⟩,
  none
]

/-- Rows 0x60-0x6F of the `OPCODES` table in src/instruction.rs. -/
def OPCODES_6 : List (Option OpCode) := [
  some ⟨.RTS, .Implied, .Official⟩,
  some ⟨.ADC, .IndexedIndirect, .Official⟩,
  none,
  none,
  some ⟨.IGN, .ZeroPage, .Unofficial⟩,
  some ⟨.ADC, .ZeroPage, .Official⟩,
  some ⟨.ROR, .ZeroPage, .Official⟩,
  none,
  some ⟨.PLA, .Implied, .Official⟩,
  some ⟨.ADC, .Immediate, .Official⟩,
  some ⟨.ROR, .Accumulator, .Official⟩,
  none,
  some ⟨.JMP, .Indirect, .Official⟩,
  some ⟨.ADC, .Absolute, .Official⟩,
  some ⟨.ROR, .Absolute, .Official⟩,
  none
]

/-- Rows 0x70-0x7F of the `OPCODES` table in src/instruction.rs. -/
def OPCODES_7 : List (Option OpCode) := [
  some ⟨.BVS, .Relative, .Official⟩,
  some ⟨.ADC, .IndirectIndexed, .Official⟩,
  none,
  none,
  some ⟨.IGN, .ZeroPageX, .Unofficial⟩,
  some ⟨.ADC, .ZeroPageX, .Official⟩,
  some ⟨.ROR, .ZeroPageX, .Official⟩,
  none,
  some ⟨.SEI, .Implied, .Official⟩,
  some ⟨.ADC, .AbsoluteY, .Official⟩,
  some ⟨.NOP, .Implied, .Unofficial⟩,
  none,
  some ⟨.IGN, .AbsoluteX, .Unofficial⟩,
  some ⟨.ADC, .AbsoluteX, .Official⟩,
  some ⟨.ROR, .AbsoluteX, .Official⟩,
  none
]

/-- Rows 0x80-0x8F of the `OPCODES` table in src/instruction.rs. -/
def OPCODES_8 : List (Option OpCode) := [
  some ⟨.SKB, .Immediate, .Unofficial⟩,
  some ⟨.STA, .IndexedIndirect, .Official⟩,
  some ⟨.SKB, .Immediate, .Unofficial⟩,
  some ⟨.SAX, .IndexedIndirect, .Unofficial⟩,
  some ⟨.STY, .ZeroPage, .Official⟩,
  some ⟨.STA, .ZeroPage, .Official⟩,
  some ⟨.STX, .ZeroPage, .Official⟩,
  some ⟨.SAX, .ZeroPage, .Unofficial⟩,
  some ⟨.DEY, .Implied, .Official⟩,
  some ⟨.SKB, .Immediate, .Unofficial⟩,
  some ⟨.TXA, .Implied, .Official⟩,
  none,
  some ⟨.STY, .Absolute, .Official⟩,
  some ⟨.STA, .Absolute, .Official⟩,
  some ⟨.STX, .Absolute, .Official⟩,
  some ⟨.SAX, .Absolute, .Unofficial⟩
]

/-- Rows 0x90-0x9F of the `OPCODES` table in src/instruction.rs. -/
def OPCODES_9 : List (Option OpCode) := [
  some ⟨.BCC, .Relative, .Official⟩,
  some ⟨.STA, .IndirectIndexed, .Official⟩,
  none,
  none,
  some ⟨.STY, .ZeroPageX, .Official⟩,
  some ⟨.STA, .ZeroPageX, .Official⟩,
  some ⟨.STX, .ZeroPageY, .Official⟩,
  some ⟨.SAX, .ZeroPageY, .Unofficial⟩,
  some ⟨.TYA, .Implied, .Official⟩,
  some ⟨.STA, .AbsoluteY, .Official⟩,
  some ⟨.TXS, .Implied, .Official⟩,
  none,
  none,
  some ⟨.STA, .AbsoluteX, .Official⟩,
  none,
  none
]

/-- Rows 0xA0-0xAF of the `OPCODES` table in src/instruction.rs. -/
def OPCODES_A : List (Option OpCode) := [
  some ⟨.LDY, .Immediate, .Official⟩,
  some ⟨.LDA, .IndexedIndirect, .Official⟩,
  some ⟨.LDX, .Immediate, .Official⟩,
  some ⟨.LAX, .IndexedIndirect, .Unofficial⟩,
  some ⟨.LDY, .ZeroPage, .Official⟩,
  some ⟨.LDA, .ZeroPage, .Official⟩,
  some ⟨.LDX, .ZeroPage, .Official⟩,
  some ⟨.LAX, .ZeroPage, .Unofficial⟩,
  some ⟨.TAY, .Implied, .Official⟩,
  some ⟨.LDA, .Immediate, .Official⟩,
  some ⟨.TAX, .Implied, .Official⟩,
  none,
  some ⟨.LDY, .Absolute, .Official⟩,
  some ⟨.LDA, .Absolute, .Official⟩,
  some ⟨.LDX, .Absolute, .Official⟩,
  some ⟨.LAX, .Absolute, .Unofficial⟩
]

/-- Rows 0xB0-0xBF of the `OPCODES` table in src/instruction.rs. -/
def OPCODES_B : List (Option OpCode) := [
  some ⟨.BCS, .Relative, .Official⟩,
  some ⟨.LDA, .IndirectIndexed, .Official⟩,
  none,
  some ⟨.LAX, .IndirectIndexed, .Unofficial⟩,
  some ⟨.LDY, .ZeroPageX, .Official⟩,
  some ⟨.LDA, .ZeroPageX, .Official⟩,
  some ⟨.LDX, .ZeroPageY, .Official⟩,
  some ⟨.LAX, .ZeroPageY, .Unofficial⟩,
  some ⟨.CLV, .Implied, .Official⟩,
  some ⟨.LDA, .AbsoluteY, .Official⟩,
  some ⟨.TSX, .Implied, .Official⟩,
  none,
  some ⟨.LDY, .AbsoluteX, .Official⟩,
  some ⟨.LDA, .AbsoluteX, .Official⟩,
  some ⟨.LDX, .AbsoluteY, .Official⟩,
  some ⟨.LAX, .AbsoluteY, .Unofficial⟩
]

/-- Rows 0xC0-0xCF of the `OPCODES` table in src/instruction.rs. -/
def OPCODES_C : List (Option OpCode) := [
  some ⟨.CPY, .Immediate, .Official⟩,
  some ⟨.CMP, .IndexedIndirect, .Official⟩,
  some ⟨.SKB, .Immediate, .Unofficial⟩,
  some ⟨.DCP, .IndexedIndirect, .Unofficial⟩,
  some ⟨.CPY, .ZeroPage, .Official⟩,
  some ⟨.CMP, .ZeroPage, .Official⟩,
  some ⟨.DEC, .ZeroPage, .Official⟩,
  some ⟨.DCP, .ZeroPage, .Unofficial⟩,
  some ⟨.INY, .Implied, .Official⟩,
  some ⟨.CMP, .Immediate, .Official⟩,
  some ⟨.DEX, .Implied, .Official⟩,
  none,
  some ⟨.CPY, .Absolute, .Official⟩,
  some ⟨.CMP, .Absolute, .Official⟩,
  some ⟨.DEC, .Absolute, .Official⟩,
  some ⟨.DCP, .Absolute, .Unofficial⟩
]

/-- Rows 0xD0-0xDF of the `OPCODES` table in src/instruction.rs. -/
def OPCODES_D : List (Option OpCode) := [
  some ⟨.BNE, .Relative, .Official⟩,
  some ⟨.CMP, .IndirectIndexed, .Official⟩,
  none,
  some ⟨.DCP, .IndirectIndexed, .Unofficial⟩,
  some ⟨.IGN, .ZeroPageX, .Unofficial⟩,
  some ⟨.CMP, .ZeroPageX, .Official⟩,
  some ⟨.DEC, .ZeroPageX, .Official⟩,
  some ⟨.DCP, .ZeroPageX, .Unofficial⟩,
  some ⟨.CLD, .Implied, .Official⟩,
  some ⟨.CMP, .AbsoluteY, .Official⟩,
  some ⟨.NOP, .Implied, .Unofficial⟩,
  some ⟨.DCP, .AbsoluteY, .Unofficial⟩,
  some ⟨.IGN, .AbsoluteX, .Unofficial⟩,
  some ⟨.CMP, .AbsoluteX, .Official⟩,
  some ⟨.DEC, .AbsoluteX, .Official⟩,
  some ⟨.DCP, .AbsoluteX, .Unofficial⟩
]

/-- Rows 0xE0-0xEF of the `OPCODES` table in src/instruction.rs. -/
def OPCODES_E : List (Option OpCode) := [
  some ⟨.CPX, .Immediate, .Official⟩,
  some ⟨.SBC, .IndexedIndirect, .Official⟩,
  some ⟨.SKB, .Immediate, .Unofficial⟩,
  none,
  some ⟨.CPX, .ZeroPage, .Official⟩,
  some ⟨.SBC, .ZeroPage, .Official⟩,
  some ⟨.INC, .ZeroPage, .Official⟩,
  none,
  some ⟨.INX, .Implied, .Official⟩,
  some ⟨.SBC, .Immediate, .Official⟩,
  some ⟨.NOP, .Implied, .Official⟩,
  some ⟨.SBC, .Immediate, .Unofficial⟩,
  some ⟨.CPX, .Absolute, .Official⟩,
  some ⟨.SBC, .Absolute, .Official⟩,
  some ⟨.INC, .Absolute, .Official⟩,
  none
]

/-- Rows 0xF0-0xFF of the `OPCODES` table in src/instruction.rs. -/
def OPCODES_F : List (Option OpCode) := [
  some ⟨.BEQ, .Relative, .Official⟩,
  some ⟨.SBC, .IndirectIndexed, .Official⟩,
  none,
  none,
  some ⟨.IGN, .ZeroPageX, .Unofficial⟩,
  some ⟨.SBC, .ZeroPageX, .Official⟩,
  some ⟨.INC, .ZeroPageX, .Official⟩,
  none,
  some ⟨.SED, .Implied, .Official⟩,
  some ⟨.SBC, .AbsoluteY, .Official⟩,
  some ⟨.NOP, .Implied, .Unofficial⟩,
  none,
  some ⟨.IGN, .AbsoluteX, .Unofficial⟩,
  some ⟨.SBC, .AbsoluteX, .Official⟩,
  some ⟨.INC, .AbsoluteX, .Official⟩,
  none
]

/-- The full 256-entry dispatch table `OPCODES` in src/instruction.rs. -/
def OPCODES : List (Option OpCode) :=
  OPCODES_0 ++ OPCODES_1 ++ OPCODES_2 ++ OPCODES_3 ++ OPCODES_4 ++ OPCODES_5 ++ OPCODES_6 ++ OPCODES_7 ++ OPCODES_8 ++ OPCODES_9 ++ OPCODES_A ++ OPCODES_B ++ OPCODES_C ++ OPCODES_D ++ OPCODES_E ++ OPCODES_F

/-- Dispatch-table lookup (`OPCODES[op]` with `op < 256`). -/
def lookupOpcode (b : Nat) : Option OpCode := List.getD OPCODES b none

/-- `CPU::step` in src/cpu.rs: on an idle tick fetch, dispatch and
execute one opcode (a missing dispatch entry is the fatal decode
panic, modelled as `none`), add the consumed cycles to `total_cycles`,
then decrement `remain_cycles`; on a draining tick just decrement. -/
def step (s : Machine) : Option Machine :=
  if s.cpu.remain_cycles = 0 then
    let (op, s1) := fetch_byte s
    match lookupOpcode op with
    | some o =>
        match execute o.ins o.mode s1 with
        | some s2 =>
            decRemain { s2 with cpu := { s2.cpu with
              total_cycles := s2.cpu.total_cycles + s2.cpu.remain_cycles } }
        | none => none
    | none => none
  else decRemain s


/-! ## Shared arithmetic lemmas -/

/-- The source's bit test `(x >> k) & 1 == 1` is `Nat.testBit`. -/
theorem shift_and_one_eq_testBit (x k : Nat) :
    (((x >>> k) &&& 1) == 1) = x.testBit k := by
  simp [Nat.testBit, Nat.and_one_is_mod, Nat.one_and_eq_mod_two]

/-- `x & 128 ≠ 0` tests bit 7. -/
theorem and_128_ne_zero (x : Nat) : (x &&& 128 ≠ 0) ↔ x.testBit 7 = true := by
  have h : (128 : Nat) = 2 ^ 7 := by norm_num
  rw [h, Nat.and_two_pow]
  cases hx : x.testBit 7 <;> simp

/-- Masking a 16-bit value with `0xFF00` keeps the high byte. -/
theorem and_ff00 (x : Nat) (hx : x < 65536) : x &&& 0xFF00 = 256 * (x / 256) := by
  apply Nat.eq_of_testBit_eq
  intro k
  rw [Nat.testBit_and]
  have h256 : 256 * (x / 256) = (x >>> 8) <<< 8 := by
    rw [Nat.shiftRight_eq_div_pow, Nat.shiftLeft_eq]
    ring
  rw [h256, Nat.testBit_shiftLeft, Nat.testBit_shiftRight]
  rcases lt_or_ge k 8 with h8 | h8
  · have hm : Nat.testBit 0xFF00 k = false := by interval_cases k <;> decide
    simp [hm, Nat.not_le.mpr h8]
  · rcases lt_or_ge k 16 with h16 | h16
    · have hm : Nat.testBit 0xFF00 k = true := by interval_cases k <;> decide
      have : 8 + (k - 8) = k := by omega
      simp [hm, h8, this]
    · have hp : (2 : Nat) ^ 16 ≤ 2 ^ k := Nat.pow_le_pow_right (by norm_num) h16
      have hm : Nat.testBit 0xFF00 k = false :=
        Nat.testBit_lt_two_pow (lt_of_lt_of_le (by norm_num) hp)
      have hx2 : Nat.testBit x k = false :=
        Nat.testBit_lt_two_pow (lt_of_lt_of_le (lt_of_lt_of_le hx (by norm_num)) hp)
      have : 8 + (k - 8) = k := by omega
      simp [hm, hx2, this]

/-- Masking with `0xFF` keeps the low byte. -/
theorem and_ff (x : Nat) : x &&& 0xFF = x % 256 := by
  have h := Nat.and_pow_two_sub_one_eq_mod x 8
  norm_num at h
  exact h

/-- Low byte plus shifted high byte reassemble a 16-bit value. -/
theorem low_high_recompose (x : Nat) :
    (x &&& 0xFF) + ((x >>> 8) <<< 8) = x := by
  rw [and_ff, Nat.shiftRight_eq_div_pow, Nat.shiftLeft_eq]
  have := Nat.div_add_mod x 256
  norm_num
  omega

/-- The all-zero byte store is well formed. -/
theorem memWF_zero : MemWF (fun _ => 0) := fun _ => by norm_num

/-- Updating a well-formed store with a byte keeps it well formed. -/
theorem memWF_update {m : Nat → Nat} (h : MemWF m) {v : Nat} (hv : v < 256) (a : Nat) :
    MemWF (updateMem m a v) := by
  intro q
  unfold updateMem
  by_cases hq : q = a <;> simp [hq, hv, h q]

/-! ## C7: IRQ with the I flag set is a no-op -/

/-- **C7.**  If the I (interrupt-disable) flag is set, `CPU::interrupt`
with kind IRQ returns immediately: the whole machine — every register,
every flag, both cycle counters, the byte store and the bus-access
trace — is exactly the input machine, so no byte is pushed and no
vector is fetched. -/
theorem claim_C7_irq_masked (s : Machine) (h : s.cpu.flags.i = true) :
    interrupt s Interrupt.IRQ = s := by
  unfold interrupt
  simp [h]

def c7mem : Nat → Nat := fun _ => 0

def c7state : Machine :=
  { cpu := { pc := 0x8000, sp := 0xFF, a := 1, x := 2, y := 3,
             flags := { StatusFlag.default with i := true },
             remain_cycles := 0, total_cycles := 0 },
    mem := c7mem, trace := [] }

/-- Witness for C7 at a concrete machine. -/
theorem claim_C7_irq_masked_witness :
    c7state.cpu.flags.i = true ∧ interrupt c7state Interrupt.IRQ = c7state :=
  ⟨rfl, claim_C7_irq_masked c7state rfl⟩


/-! ## C3: interrupt with kind Reset -/

/-- **C3 (amended).**  `CPU::interrupt` with kind Reset pushes nothing
(the byte store is untouched and the only bus traffic is the two vector
reads), leaves A, X, Y, SP and every flag unchanged, and loads PC with
the little-endian 16-bit value stored at `0xFFFC`/`0xFFFD`.  (The claim's
zeroing of A/X/Y, `SP = 0xFF` and flag clearing happen only in the
separate `CPU::reset` method, not in the interrupt operation.) -/
theorem claim_C3_reset_interrupt (s : Machine) :
    (interrupt s Interrupt.Reset).cpu.a = s.cpu.a ∧
    (interrupt s Interrupt.Reset).cpu.x = s.cpu.x ∧
    (interrupt s Interrupt.Reset).cpu.y = s.cpu.y ∧
    (interrupt s Interrupt.Reset).cpu.sp = s.cpu.sp ∧
    (interrupt s Interrupt.Reset).cpu.flags = s.cpu.flags ∧
    (interrupt s Interrupt.Reset).mem = s.mem ∧
    (interrupt s Interrupt.Reset).trace =
      BusEvent.read 0xFFFD :: BusEvent.read 0xFFFC :: s.trace ∧
    (interrupt s Interrupt.Reset).cpu.pc = (s.mem 0xFFFD <<< 8) + s.mem 0xFFFC := by
  unfold interrupt fetch_byte busRead wadd16
  norm_num
  simp

def c3state : Machine :=
  { cpu := { pc := 0x8000, sp := 0x20, a := 7, x := 3, y := 5,
             flags := StatusFlag.default, remain_cycles := 0, total_cycles := 0 },
    mem := fun _ => 0, trace := [] }

/-- **C3 (counterexample).**  At a machine with `A = 7` and `SP = 0x20`,
`CPU::interrupt` with kind Reset neither zeroes the accumulator nor sets
`SP = 0xFF`, contradicting the claim that it does. -/
theorem claim_C3_counterexample :
    ¬((interrupt c3state Interrupt.Reset).cpu.a = 0 ∧
      (interrupt c3state Interrupt.Reset).cpu.sp = 0xFF) := by decide

/-! ## C1: the BRK instruction arm -/

def c1mem : Nat → Nat :=
  updateMem (updateMem (fun _ => 0) 0xFFFE 0x34) 0xFFFF 0x12

def c1state : Machine :=
  { cpu := { pc := 0x8001, sp := 0xFF, a := 0, x := 0, y := 0,
             flags := StatusFlag.default, remain_cycles := 0, total_cycles := 0 },
    mem := c1mem, trace := [] }

/-- **C1 (code evaluated at the failing input).**  A BRK fetched at
`0x8000` (so `PC = 0x8001` when the arm runs) with vector bytes
`[0xFFFE] = 0x34`, `[0xFFFF] = 0x12`:

* the claim requires the pushed return address to be `BRK_PC + 2 =
  0x8002` and the new PC to be the little-endian vector `0x1234`;
* the code pushes `0x80`/`0x01` (the raw `PC = BRK_PC + 1`) and sets
  `PC = 0x4600`, because `ram.read_byte(0xFFFE) as u16 +
  (ram.read_byte(0xFFFF) as u16) << 8` parses as
  `(0x34 + 0x12) << 8`.

The packed flag byte it pushes does have B = 1 and the I flag is set,
as the claim says. -/
theorem claim_C1_brk_diverges :
    (execute Instruction.BRK AddressingMode.Implied c1state).map
      (fun s => (s.cpu.pc, s.mem 0x01FF, s.mem 0x01FE, s.cpu.flags.i,
                 (s.mem 0x01FD).testBit 4)) =
      some (0x4600, 0x80, 0x01, true, true) ∧
    (0x4600 : Nat) ≠ 0x1234 ∧ (0x01 : Nat) ≠ 0x02 := by decide


/-! ## C2: AbsoluteX / AbsoluteY cycle accounting -/

/-- Effective address of an AbsoluteX operand at machine `s`:
the little-endian base following PC, plus X, wrapping mod 65536. -/
def effAbsX (s : Machine) : Nat :=
  wadd16 (s.mem s.cpu.pc + (s.mem (wadd16 s.cpu.pc 1) <<< 8)) s.cpu.x

/-- Effective address of an AbsoluteY operand at machine `s`. -/
def effAbsY (s : Machine) : Nat :=
  wadd16 (s.mem s.cpu.pc + (s.mem (wadd16 s.cpu.pc 1) <<< 8)) s.cpu.y

/-- **C2 (amended).**  Reading an operand through AbsoluteX or AbsoluteY
consumes 3 cycles (two operand fetches and the data read) plus exactly
one extra cycle if and only if the high byte of the effective address
differs from the high byte of the PC at the start of operand evaluation
(the address of the operand's first byte) — not from the high byte of
the base address HHLL, as the claim states.  Pure-write instructions
through these modes (STA) never pay the penalty: they consume exactly
3 cycles (two operand fetches and the write) irrespective of any
crossing. -/
theorem claim_C2_indexed_cycles (s : Machine) :
    (fetchOp AddressingMode.AbsoluteX s).map (fun p => p.2.cpu.remain_cycles) =
      some (s.cpu.remain_cycles + 3 +
        (if s.cpu.pc &&& 0xFF00 ≠ effAbsX s &&& 0xFF00 then 1 else 0)) ∧
    (fetchOp AddressingMode.AbsoluteY s).map (fun p => p.2.cpu.remain_cycles) =
      some (s.cpu.remain_cycles + 3 +
        (if s.cpu.pc &&& 0xFF00 ≠ effAbsY s &&& 0xFF00 then 1 else 0)) ∧
    (execute Instruction.STA AddressingMode.AbsoluteX s).map
      (fun m => m.cpu.remain_cycles) = some (s.cpu.remain_cycles + 3) ∧
    (execute Instruction.STA AddressingMode.AbsoluteY s).map
      (fun m => m.cpu.remain_cycles) = some (s.cpu.remain_cycles + 3) := by
  refine ⟨?_, ?_, ?_, ?_⟩ <;>
    simp only [fetchOp, get_address, execute, fetch_byte, busRead, read_byte,
      write_byte, busWrite, addCycles, effAbsX, effAbsY, Option.map_some]
  · split_ifs <;> simp
  · split_ifs <;> simp
  · simp
  · simp

def c2mem : Nat → Nat :=
  updateMem (updateMem (fun _ => 0) 0x0200 0x00) 0x0201 0x03

def c2state : Machine :=
  { cpu := { pc := 0x0200, sp := 0xFF, a := 0, x := 0, y := 0,
             flags := StatusFlag.default, remain_cycles := 0, total_cycles := 0 },
    mem := c2mem, trace := [] }

/-- **C2 (counterexample).**  With PC = `0x0200`, operand bytes
`00 03` (base HHLL = `0x0300`) and X = 0, the effective address is
`0x0300`: its high byte equals the base's high byte, so the claim
requires no extra cycle — 3 cycles in all.  The code nevertheless
consumes 4, because its crossing test compares against the PC page
`0x02`.  (The repository's own `test_absolute_x` pins this PC-based
behaviour.) -/
theorem claim_C2_counterexample :
    (get_address AddressingMode.AbsoluteX c2state).map (fun p => p.1) = some 0x0300 ∧
    c2state.mem c2state.cpu.pc + (c2state.mem (c2state.cpu.pc + 1) <<< 8) = 0x0300 ∧
    (fetchOp AddressingMode.AbsoluteX c2state).map (fun p => p.2.cpu.remain_cycles) = some 4 ∧
    (fetchOp AddressingMode.AbsoluteX c2state).map (fun p => p.2.cpu.remain_cycles) ≠ some 3 := by
  decide


/-! ## C4: JMP Indirect and the page-boundary bug -/

/-- The indirect pointer HHLL following the PC at machine `s`. -/
def indPtr (s : Machine) : Nat :=
  s.mem s.cpu.pc + (s.mem (wadd16 s.cpu.pc 1) <<< 8)

/-- The code's high-byte read address
`(ind & 0xFF00) + (ind as u8).wrapping_add(1)` stays inside the
pointer's page: it is `ind - 0xFF` (that is, `$xx00`) when the pointer
ends in `0xFF`, and `ind + 1` otherwise. -/
theorem indirect_high_addr (ind : Nat) (h : ind < 65536) :
    (ind &&& 0xFF00) + wadd8 (ind % 256) 1 =
      if ind % 256 = 0xFF then ind - 0xFF else ind + 1 := by
  rw [and_ff00 ind h]
  unfold wadd8
  split_ifs with h255 <;> omega

/-- **C4.**  Executing JMP with Indirect addressing reads the low byte
of the target from the pointer HHLL; the high byte is read from
`$xx00` (i.e. `HHLL - 0xFF`) when `LL = 0xFF`, and from `HHLL + 1`
otherwise; PC is set to the address so assembled. -/
theorem claim_C4_jmp_indirect (s : Machine) (hwf : MemWF s.mem) :
    (executeD Instruction.JMP AddressingMode.Indirect s).cpu.pc =
      s.mem (indPtr s) +
        (s.mem (if indPtr s % 256 = 0xFF then indPtr s - 0xFF else indPtr s + 1) <<< 8) := by
  have hbound : indPtr s < 65536 := by
    unfold indPtr
    have h1 := hwf s.cpu.pc
    have h2 := hwf (wadd16 s.cpu.pc 1)
    rw [Nat.shiftLeft_eq]
    omega
  have crux : (executeD Instruction.JMP AddressingMode.Indirect s).cpu.pc =
      s.mem (indPtr s) +
        (s.mem ((indPtr s &&& 0xFF00) + wadd8 (indPtr s % 256) 1) <<< 8) := by
    simp only [executeD, execute, get_address, addCycles, fetch_byte, busRead,
      read_byte, indPtr, Option.getD_some]
  rw [crux, indirect_high_addr (indPtr s) hbound]

def c4mem : Nat → Nat :=
  updateMem (updateMem (updateMem (updateMem (fun _ => 0)
    0x8000 0xFF) 0x8001 0x02) 0x02FF 0x34) 0x0200 0x12

def c4state : Machine :=
  { cpu := { pc := 0x8000, sp := 0xFF, a := 0, x := 0, y := 0,
             flags := StatusFlag.default, remain_cycles := 0, total_cycles := 0 },
    mem := c4mem, trace := [] }

theorem c4mem_wf : MemWF c4mem := by
  intro q
  simp only [c4mem, updateMem]
  split_ifs <;> norm_num

/-- Witness for C4: `JMP ($02FF)` with `[$02FF] = 0x34`, `[$0200] = 0x12`
lands on PC = `0x1234` (high byte from `$0200`, not `$0300`). -/
theorem claim_C4_jmp_indirect_witness :
    MemWF c4mem ∧ (executeD Instruction.JMP AddressingMode.Indirect c4state).cpu.pc = 0x1234 :=
  ⟨c4mem_wf, (claim_C4_jmp_indirect c4state c4mem_wf).trans (by decide)⟩


/-! ## C6: PHP/PLP round trip -/

/-- Packing the flags with bits 4 and 5 forced, masking them off again
and unpacking restores every flag except that B comes back 0 and R
comes back 1. -/
theorem php_plp_flags (f : StatusFlag) :
    StatusFlag.set_as_u8 ((f.get_as_u8 ||| 0b00110000) &&& 0b11001111) =
      { f with b := false, r := true } := by
  obtain ⟨c, z, i, d, b, r, v, n⟩ := f
  revert c z i d b r v n
  decide

/-- **C6.**  For every flag state, PHP then PLP restores C, Z, I, D, V
and N exactly, afterwards B = 0 and R = 1, and the byte PHP pushed onto
the stack has bits 4 and 5 both set. -/
theorem claim_C6_php_plp (s : Machine) (hsp : s.cpu.sp < 256) :
    (executeD Instruction.PLP AddressingMode.Implied
        (executeD Instruction.PHP AddressingMode.Implied s)).cpu.flags =
      { s.cpu.flags with b := false, r := true } ∧
    ((executeD Instruction.PHP AddressingMode.Implied s).mem
        (0x0100 + s.cpu.sp)).testBit 4 = true ∧
    ((executeD Instruction.PHP AddressingMode.Implied s).mem
        (0x0100 + s.cpu.sp)).testBit 5 = true := by
  have hsp2 : wadd8 (wsub8 s.cpu.sp 1) 1 = s.cpu.sp := by
    unfold wadd8 wsub8
    omega
  refine ⟨?_, ?_, ?_⟩ <;>
    simp only [executeD, execute, push_to_stack, write_byte, busWrite,
      pull_from_stack, read_byte, busRead, addCycles, withFlags,
      updateMem, hsp2, Option.getD_some, if_pos, php_plp_flags,
      Nat.testBit_or]
  · cases s.cpu.flags.get_as_u8.testBit 4 <;> decide
  · cases s.cpu.flags.get_as_u8.testBit 5 <;> decide


def c6state : Machine :=
  { cpu := { pc := 0x8000, sp := 0xFF, a := 0, x := 0, y := 0,
             flags := { c := true, z := false, i := true, d := false,
                        b := true, r := false, v := true, n := true },
             remain_cycles := 0, total_cycles := 0 },
    mem := fun _ => 0, trace := [] }

/-- Witness for C6 at a concrete machine. -/
theorem claim_C6_php_plp_witness :
    c6state.cpu.sp < 256 ∧
    (executeD Instruction.PLP AddressingMode.Implied
        (executeD Instruction.PHP AddressingMode.Implied c6state)).cpu.flags =
      { c6state.cpu.flags with b := false, r := true } :=
  ⟨by decide, (claim_C6_php_plp c6state (by decide)).1⟩


/-! ## C8: ADC/SBC arithmetic -/

/-- `x == 0` on `Nat` is the decidable test `x = 0`. -/
theorem beq_zero_eq_decide (x : Nat) : (x == 0) = decide (x = 0) := by
  cases x <;> simp

/-- The code's two bit-7 tests combined equal the claim's single
`((x & y) & 0x80) ≠ 0` test. -/
theorem and_and_128 (x y : Nat) :
    ((x &&& 128 != 0) && (y &&& 128 != 0)) = decide ((x &&& y) &&& 128 ≠ 0) := by
  have h128 : (128 : Nat) = 2 ^ 7 := by norm_num
  rw [h128, Nat.and_two_pow, Nat.and_two_pow, Nat.and_two_pow, Nat.testBit_and]
  cases hxb : x.testBit 7 <;> cases hyb : y.testBit 7 <;> simp

def c8state (a m : Nat) (cin : Bool) : Machine :=
  { cpu := { pc := 0x8000, sp := 0xFF, a := a, x := 0, y := 0,
             flags := { StatusFlag.default with c := cin },
             remain_cycles := 0, total_cycles := 0 },
    mem := fun _ => m, trace := [] }

/-- **C8.**  For accumulator A, immediate operand M and carry C, ADC
writes the 8-bit wrapped sum `A + M + C` to the accumulator, sets C
exactly when the unsigned sum exceeds 255, sets V exactly when
`((A ^ result) & (M ^ result)) & 0x80` is nonzero, and sets Z and N
from the result; in particular `0x50 + 0x50` gives V = 1,
`0x50 + 0x10` gives V = 0, and for SBC `0xD0 - 0x70` (with C = 1)
gives V = 1 and `0xD0 - 0xB0` gives V = 0. -/
theorem claim_C8_adc_sbc (s : Machine)
    (ha : s.cpu.a < 256) (hm : s.mem s.cpu.pc < 256) :
    ((executeD Instruction.ADC AddressingMode.Immediate s).cpu.a =
        (s.cpu.a + s.mem s.cpu.pc + s.cpu.flags.c.toNat) % 256) ∧
    ((executeD Instruction.ADC AddressingMode.Immediate s).cpu.flags.c =
        decide (255 < s.cpu.a + s.mem s.cpu.pc + s.cpu.flags.c.toNat)) ∧
    ((executeD Instruction.ADC AddressingMode.Immediate s).cpu.flags.v =
        decide ((s.cpu.a ^^^ (s.cpu.a + s.mem s.cpu.pc + s.cpu.flags.c.toNat) % 256) &&&
                (s.mem s.cpu.pc ^^^ (s.cpu.a + s.mem s.cpu.pc + s.cpu.flags.c.toNat) % 256) &&&
                0x80 ≠ 0)) ∧
    ((executeD Instruction.ADC AddressingMode.Immediate s).cpu.flags.z =
        decide ((s.cpu.a + s.mem s.cpu.pc + s.cpu.flags.c.toNat) % 256 = 0)) ∧
    ((executeD Instruction.ADC AddressingMode.Immediate s).cpu.flags.n =
        ((s.cpu.a + s.mem s.cpu.pc + s.cpu.flags.c.toNat) % 256).testBit 7) ∧
    (executeD Instruction.ADC AddressingMode.Immediate (c8state 0x50 0x50 false)).cpu.flags.v = true ∧
    (executeD Instruction.ADC AddressingMode.Immediate (c8state 0x50 0x10 false)).cpu.flags.v = false ∧
    (executeD Instruction.SBC AddressingMode.Immediate (c8state 0xD0 0x70 true)).cpu.flags.v = true ∧
    (executeD Instruction.SBC AddressingMode.Immediate (c8state 0xD0 0xB0 true)).cpu.flags.v = false := by
  have hcin : s.cpu.flags.c.toNat ≤ 1 := Bool.toNat_le s.cpu.flags.c
  have hr : ((s.cpu.a + s.mem s.cpu.pc) % 256 + s.cpu.flags.c.toNat) % 256 =
      (s.cpu.a + s.mem s.cpu.pc + s.cpu.flags.c.toNat) % 256 := by omega
  refine ⟨?_, ?_, ?_, ?_, ?_, by decide, by decide, by decide, by decide⟩ <;>
    simp only [executeD, execute, fetchOp, fetch_byte, busRead, ovadd8,
      set_accumulator, set_zero_and_negative_flag, withFlags, Option.getD_some]
  · exact hr
  · rw [← Bool.decide_or, decide_eq_decide]
    omega
  · rw [hr, and_and_128]
  · rw [hr, beq_zero_eq_decide]
  · rw [hr, shift_and_one_eq_testBit]


/-- Witness for C8 at the concrete input `A = 0x50, M = 0x50, C = 0`. -/
theorem claim_C8_adc_sbc_witness :
    (c8state 0x50 0x50 false).cpu.a < 256 ∧
    (c8state 0x50 0x50 false).mem (c8state 0x50 0x50 false).cpu.pc < 256 ∧
    (executeD Instruction.ADC AddressingMode.Immediate (c8state 0x50 0x50 false)).cpu.a = 0xA0 :=
  ⟨by decide, by decide,
    ((claim_C8_adc_sbc (c8state 0x50 0x50 false) (by decide) (by decide)).1).trans (by decide)⟩


/-! ## C5: JSR/RTS round trip -/

/-- **C5.**  With the JSR opcode fetched at `jpc` (so PC = `jpc + 1`
when the arm runs), JSR in Absolute mode pushes `PC - 1 = jpc + 2`
high byte first (at `0x0100 + SP`) then low byte, and sets PC to the
operand address; executing RTS on the resulting machine (the target
immediately returning) pulls low then high and leaves
`PC = pulled + 1 = jpc + 3`, the instruction after the JSR operand. -/
theorem claim_C5_jsr_rts (s : Machine) (jpc : Nat)
    (hpc : s.cpu.pc = jpc + 1) (hj : jpc + 3 < 65536) (hsp : s.cpu.sp < 256) :
    (executeD Instruction.JSR AddressingMode.Absolute s).mem (0x0100 + s.cpu.sp)
        = (jpc + 2) >>> 8 ∧
    (executeD Instruction.JSR AddressingMode.Absolute s).mem (0x0100 + wsub8 s.cpu.sp 1)
        = (jpc + 2) &&& 0xFF ∧
    (executeD Instruction.JSR AddressingMode.Absolute s).cpu.pc
        = s.mem (jpc + 1) + (s.mem (jpc + 2) <<< 8) ∧
    (executeD Instruction.RTS AddressingMode.Implied
        (executeD Instruction.JSR AddressingMode.Absolute s)).cpu.pc = jpc + 3 := by
  have h1 : wadd16 (jpc + 1) 1 = jpc + 2 := by
    unfold wadd16
    omega
  have h2 : wadd16 (jpc + 2) 1 = jpc + 3 := by
    unfold wadd16
    omega
  have h3 : wsub16 (jpc + 3) 1 = jpc + 2 := by
    unfold wsub16
    omega
  have haddr : ¬(0x0100 + s.cpu.sp = 0x0100 + wsub8 s.cpu.sp 1) := by
    unfold wsub8
    omega
  have haddr2 : ¬(0x0100 + wsub8 s.cpu.sp 1 = 0x0100 + s.cpu.sp) := by
    unfold wsub8
    omega
  have hs2 : wadd8 (wsub8 (wsub8 s.cpu.sp 1) 1) 1 = wsub8 s.cpu.sp 1 := by
    unfold wadd8 wsub8
    omega
  have hs3 : wadd8 (wsub8 s.cpu.sp 1) 1 = s.cpu.sp := by
    unfold wadd8 wsub8
    omega
  have hne : ¬(s.cpu.sp = wsub8 s.cpu.sp 1) := by
    unfold wsub8
    omega
  have hne2 : ¬(wsub8 s.cpu.sp 1 = s.cpu.sp) := by
    unfold wsub8
    omega
  have h4 : wadd16 (((jpc + 2) &&& 0xFF) + (((jpc + 2) >>> 8) <<< 8)) 1 = jpc + 3 := by
    rw [low_high_recompose]
    unfold wadd16
    omega
  refine ⟨?_, ?_, ?_, ?_⟩ <;>
    simp only [executeD, execute, get_address, fetch_byte, busRead,
      push_to_stack, write_byte, busWrite, pull_from_stack, read_byte,
      decRemain, addCycles, updateMem, hpc, h1, h2, h3, hs2, hs3, h4,
      haddr, haddr2, Option.getD_some, Nat.add_eq_zero, and_false,
      false_and, if_false, ite_false, if_true, ite_true, if_neg, eq_self_iff_true,
      Option.map_some, reduceCtorEq, OfNat.ofNat_ne_zero]
  · simp [updateMem, haddr, haddr2]
  · simp [updateMem, haddr, haddr2]
  · simp
  · simp [updateMem, hs2, hs3, hne, hne2, h4]


def c5state : Machine :=
  { cpu := { pc := 0x8001, sp := 0xFF, a := 0, x := 0, y := 0,
             flags := StatusFlag.default, remain_cycles := 0, total_cycles := 0 },
    mem := updateMem (updateMem (fun _ => 0) 0x8001 0x02) 0x8002 0x01, trace := [] }

/-- Witness for C5: a JSR at `0x8000` targeting `0x0102` followed by an
immediate RTS returns to `0x8003`. -/
theorem claim_C5_jsr_rts_witness :
    c5state.cpu.pc = 0x8000 + 1 ∧ 0x8000 + 3 < 65536 ∧ c5state.cpu.sp < 256 ∧
    (executeD Instruction.RTS AddressingMode.Implied
        (executeD Instruction.JSR AddressingMode.Absolute c5state)).cpu.pc = 0x8003 :=
  ⟨by decide, by decide, by decide,
    ((claim_C5_jsr_rts c5state 0x8000 (by decide) (by decide) (by decide)).2.2.2).trans
      (by norm_num)⟩


/-! ## C9: N and Z track the written result -/

/-- Variant of the bit-7 test in the `% 2` normal form simp produces. -/
theorem mod_two_beq_testBit (x k : Nat) : ((x >>> k) % 2 == 1) = x.testBit k := by
  rw [← shift_and_one_eq_testBit x k, Nat.and_one_is_mod]

/-- **C9.**  For every instruction the spec lists as setting N/Z
(LDA, LDX, LDY, TAX, TAY, TXA, TYA, TSX, PLA, AND, EOR, ORA, ADC, SBC,
INC, INX, INY, DEC, DEX, DEY, ASL, LSR, ROL, ROR, LAX), immediately
after execution Z equals `result == 0` and N equals bit 7 of the
written result — the register written, or for the memory
read-modify-write forms the byte written back at the effective
address. -/
theorem claim_C9_nz_flags (s : Machine) :
    ((executeD Instruction.LDA AddressingMode.Immediate s).cpu.flags.z = ((executeD Instruction.LDA AddressingMode.Immediate s).cpu.a == 0) ∧
      (executeD Instruction.LDA AddressingMode.Immediate s).cpu.flags.n = (executeD Instruction.LDA AddressingMode.Immediate s).cpu.a.testBit 7) ∧
    ((executeD Instruction.LDX AddressingMode.Immediate s).cpu.flags.z = ((executeD Instruction.LDX AddressingMode.Immediate s).cpu.x == 0) ∧
      (executeD Instruction.LDX AddressingMode.Immediate s).cpu.flags.n = (executeD Instruction.LDX AddressingMode.Immediate s).cpu.x.testBit 7) ∧
    ((executeD Instruction.LDY AddressingMode.Immediate s).cpu.flags.z = ((executeD Instruction.LDY AddressingMode.Immediate s).cpu.y == 0) ∧
      (executeD Instruction.LDY AddressingMode.Immediate s).cpu.flags.n = (executeD Instruction.LDY AddressingMode.Immediate s).cpu.y.testBit 7) ∧
    ((executeD Instruction.TAX AddressingMode.Implied s).cpu.flags.z = ((executeD Instruction.TAX AddressingMode.Implied s).cpu.x == 0) ∧
      (executeD Instruction.TAX AddressingMode.Implied s).cpu.flags.n = (executeD Instruction.TAX AddressingMode.Implied s).cpu.x.testBit 7) ∧
    ((executeD Instruction.TAY AddressingMode.Implied s).cpu.flags.z = ((executeD Instruction.TAY AddressingMode.Implied s).cpu.y == 0) ∧
      (executeD Instruction.TAY AddressingMode.Implied s).cpu.flags.n = (executeD Instruction.TAY AddressingMode.Implied s).cpu.y.testBit 7) ∧
    ((executeD Instruction.TXA AddressingMode.Implied s).cpu.flags.z = ((executeD Instruction.TXA AddressingMode.Implied s).cpu.a == 0) ∧
      (executeD Instruction.TXA AddressingMode.Implied s).cpu.flags.n = (executeD Instruction.TXA AddressingMode.Implied s).cpu.a.testBit 7) ∧
    ((executeD Instruction.TYA AddressingMode.Implied s).cpu.flags.z = ((executeD Instruction.TYA AddressingMode.Implied s).cpu.a == 0) ∧
      (executeD Instruction.TYA AddressingMode.Implied s).cpu.flags.n = (executeD Instruction.TYA AddressingMode.Implied s).cpu.a.testBit 7) ∧
    ((executeD Instruction.TSX AddressingMode.Implied s).cpu.flags.z = ((executeD Instruction.TSX AddressingMode.Implied s).cpu.x == 0) ∧
      (executeD Instruction.TSX AddressingMode.Implied s).cpu.flags.n = (executeD Instruction.TSX AddressingMode.Implied s).cpu.x.testBit 7) ∧
    ((executeD Instruction.PLA AddressingMode.Implied s).cpu.flags.z = ((executeD Instruction.PLA AddressingMode.Implied s).cpu.a == 0) ∧
      (executeD Instruction.PLA AddressingMode.Implied s).cpu.flags.n = (executeD Instruction.PLA AddressingMode.Implied s).cpu.a.testBit 7) ∧
    ((executeD Instruction.AND AddressingMode.Immediate s).cpu.flags.z = ((executeD Instruction.AND AddressingMode.Immediate s).cpu.a == 0) ∧
      (executeD Instruction.AND AddressingMode.Immediate s).cpu.flags.n = (executeD Instruction.AND AddressingMode.Immediate s).cpu.a.testBit 7) ∧
    ((executeD Instruction.EOR AddressingMode.Immediate s).cpu.flags.z = ((executeD Instruction.EOR AddressingMode.Immediate s).cpu.a == 0) ∧
      (executeD Instruction.EOR AddressingMode.Immediate s).cpu.flags.n = (executeD Instruction.EOR AddressingMode.Immediate s).cpu.a.testBit 7) ∧
    ((executeD Instruction.ORA AddressingMode.Immediate s).cpu.flags.z = ((executeD Instruction.ORA AddressingMode.Immediate s).cpu.a == 0) ∧
      (executeD Instruction.ORA AddressingMode.Immediate s).cpu.flags.n = (executeD Instruction.ORA AddressingMode.Immediate s).cpu.a.testBit 7) ∧
    ((executeD Instruction.ADC AddressingMode.Immediate s).cpu.flags.z = ((executeD Instruction.ADC AddressingMode.Immediate s).cpu.a == 0) ∧
      (executeD Instruction.ADC AddressingMode.Immediate s).cpu.flags.n = (executeD Instruction.ADC AddressingMode.Immediate s).cpu.a.testBit 7) ∧
    ((executeD Instruction.SBC AddressingMode.Immediate s).cpu.flags.z = ((executeD Instruction.SBC AddressingMode.Immediate s).cpu.a == 0) ∧
      (executeD Instruction.SBC AddressingMode.Immediate s).cpu.flags.n = (executeD Instruction.SBC AddressingMode.Immediate s).cpu.a.testBit 7) ∧
    ((executeD Instruction.INX AddressingMode.Implied s).cpu.flags.z = ((executeD Instruction.INX AddressingMode.Implied s).cpu.x == 0) ∧
      (executeD Instruction.INX AddressingMode.Implied s).cpu.flags.n = (executeD Instruction.INX AddressingMode.Implied s).cpu.x.testBit 7) ∧
    ((executeD Instruction.INY AddressingMode.Implied s).cpu.flags.z = ((executeD Instruction.INY AddressingMode.Implied s).cpu.y == 0) ∧
      (executeD Instruction.INY AddressingMode.Implied s).cpu.flags.n = (executeD Instruction.INY AddressingMode.Implied s).cpu.y.testBit 7) ∧
    ((executeD Instruction.DEX AddressingMode.Implied s).cpu.flags.z = ((executeD Instruction.DEX AddressingMode.Implied s).cpu.x == 0) ∧
      (executeD Instruction.DEX AddressingMode.Implied s).cpu.flags.n = (executeD Instruction.DEX AddressingMode.Implied s).cpu.x.testBit 7) ∧
    ((executeD Instruction.DEY AddressingMode.Implied s).cpu.flags.z = ((executeD Instruction.DEY AddressingMode.Implied s).cpu.y == 0) ∧
      (executeD Instruction.DEY AddressingMode.Implied s).cpu.flags.n = (executeD Instruction.DEY AddressingMode.Implied s).cpu.y.testBit 7) ∧
    ((executeD Instruction.ASL AddressingMode.Accumulator s).cpu.flags.z = ((executeD Instruction.ASL AddressingMode.Accumulator s).cpu.a == 0) ∧
      (executeD Instruction.ASL AddressingMode.Accumulator s).cpu.flags.n = (executeD Instruction.ASL AddressingMode.Accumulator s).cpu.a.testBit 7) ∧
    ((executeD Instruction.LSR AddressingMode.Accumulator s).cpu.flags.z = ((executeD Instruction.LSR AddressingMode.Accumulator s).cpu.a == 0) ∧
      (executeD Instruction.LSR AddressingMode.Accumulator s).cpu.flags.n = (executeD Instruction.LSR AddressingMode.Accumulator s).cpu.a.testBit 7) ∧
    ((executeD Instruction.ROL AddressingMode.Accumulator s).cpu.flags.z = ((executeD Instruction.ROL AddressingMode.Accumulator s).cpu.a == 0) ∧
      (executeD Instruction.ROL AddressingMode.Accumulator s).cpu.flags.n = (executeD Instruction.ROL AddressingMode.Accumulator s).cpu.a.testBit 7) ∧
    ((executeD Instruction.ROR AddressingMode.Accumulator s).cpu.flags.z = ((executeD Instruction.ROR AddressingMode.Accumulator s).cpu.a == 0) ∧
      (executeD Instruction.ROR AddressingMode.Accumulator s).cpu.flags.n = (executeD Instruction.ROR AddressingMode.Accumulator s).cpu.a.testBit 7) ∧
    ((executeD Instruction.LAX AddressingMode.ZeroPage s).cpu.flags.z = ((executeD Instruction.LAX AddressingMode.ZeroPage s).cpu.a == 0) ∧
      (executeD Instruction.LAX AddressingMode.ZeroPage s).cpu.flags.n = (executeD Instruction.LAX AddressingMode.ZeroPage s).cpu.a.testBit 7) ∧
    ((executeD Instruction.INC AddressingMode.ZeroPage s).cpu.flags.z = ((executeD Instruction.INC AddressingMode.ZeroPage s).mem (s.mem s.cpu.pc) == 0) ∧
      (executeD Instruction.INC AddressingMode.ZeroPage s).cpu.flags.n = ((executeD Instruction.INC AddressingMode.ZeroPage s).mem (s.mem s.cpu.pc)).testBit 7) ∧
    ((executeD Instruction.DEC AddressingMode.ZeroPage s).cpu.flags.z = ((executeD Instruction.DEC AddressingMode.ZeroPage s).mem (s.mem s.cpu.pc) == 0) ∧
      (executeD Instruction.DEC AddressingMode.ZeroPage s).cpu.flags.n = ((executeD Instruction.DEC AddressingMode.ZeroPage s).mem (s.mem s.cpu.pc)).testBit 7) ∧
    ((executeD Instruction.ASL AddressingMode.ZeroPage s).cpu.flags.z = ((executeD Instruction.ASL AddressingMode.ZeroPage s).mem (s.mem s.cpu.pc) == 0) ∧
      (executeD Instruction.ASL AddressingMode.ZeroPage s).cpu.flags.n = ((executeD Instruction.ASL AddressingMode.ZeroPage s).mem (s.mem s.cpu.pc)).testBit 7) ∧
    ((executeD Instruction.LSR AddressingMode.ZeroPage s).cpu.flags.z = ((executeD Instruction.LSR AddressingMode.ZeroPage s).mem (s.mem s.cpu.pc) == 0) ∧
      (executeD Instruction.LSR AddressingMode.ZeroPage s).cpu.flags.n = ((executeD Instruction.LSR AddressingMode.ZeroPage s).mem (s.mem s.cpu.pc)).testBit 7) ∧
    ((executeD Instruction.ROL AddressingMode.ZeroPage s).cpu.flags.z = ((executeD Instruction.ROL AddressingMode.ZeroPage s).mem (s.mem s.cpu.pc) == 0) ∧
      (executeD Instruction.ROL AddressingMode.ZeroPage s).cpu.flags.n = ((executeD Instruction.ROL AddressingMode.ZeroPage s).mem (s.mem s.cpu.pc)).testBit 7) ∧
    ((executeD Instruction.ROR AddressingMode.ZeroPage s).cpu.flags.z = ((executeD Instruction.ROR AddressingMode.ZeroPage s).mem (s.mem s.cpu.pc) == 0) ∧
      (executeD Instruction.ROR AddressingMode.ZeroPage s).cpu.flags.n = ((executeD Instruction.ROR AddressingMode.ZeroPage s).mem (s.mem s.cpu.pc)).testBit 7) := by
  refine ⟨?_, ?_, ?_, ?_, ?_, ?_, ?_, ?_, ?_, ?_, ?_, ?_, ?_, ?_, ?_, ?_, ?_, ?_, ?_, ?_, ?_, ?_, ?_, ?_, ?_, ?_, ?_, ?_, ?_⟩ <;>
    refine ⟨?_, ?_⟩ <;>
      simp [executeD, execute, fetchOp, get_address, fetch_byte, busRead,
        read_byte, pull_from_stack, set_accumulator, set_index_x, set_index_y,
        set_zero_and_negative_flag, addCycles, withFlags, write_byte, busWrite,
        updateMem, shift_and_one_eq_testBit, mod_two_beq_testBit]


/-! ## C10: step never underflows remain_cycles -/

/-- Modes accepted by `AddressingMode::fetch` (the others panic). -/
def fetchable : AddressingMode → Bool
  | .Implied | .Relative | .Indirect => false
  | _ => true

/-- Modes accepted by `AddressingMode::get_address` (the others panic). -/
def addressable : AddressingMode → Bool
  | .Accumulator | .Implied | .Immediate => false
  | _ => true

/-- Instruction/mode pairs whose `OpCode::execute` arm cannot hit an
addressing-mode panic. -/
def validPair : Instruction → AddressingMode → Bool
  | .LDA, m | .LDX, m | .LDY, m | .AND, m | .EOR, m | .ORA, m | .BIT, m
  | .ADC, m | .SBC, m | .CMP, m | .CPX, m | .CPY, m | .LAX, m
  | .SKB, m | .IGN, m => fetchable m
  | .STA, m | .STX, m | .STY, m | .INC, m | .DEC, m | .JMP, m | .JSR, m
  | .SAX, m | .DCP, m
  | .BCC, m | .BCS, m | .BNE, m | .BEQ, m
  | .BPL, m | .BMI, m | .BVC, m | .BVS, m => addressable m
  | .ASL, m | .LSR, m | .ROL, m | .ROR, m => (m == .Accumulator) || addressable m
  | _, _ => true

set_option maxHeartbeats 2000000 in
/-- For every valid instruction/mode pair, `execute` succeeds and never
shrinks `remain_cycles`: every arm charges at least as many cycles as
it takes back (JSR and RTI subtract one after adding at least six). -/
theorem execute_ok (i : Instruction) (m : AddressingMode) (s : Machine)
    (h : validPair i m = true) :
    (execute i m s).isSome = true ∧
    s.cpu.remain_cycles ≤ ((execute i m s).getD s).cpu.remain_cycles := by
  cases i <;> cases m <;>
    first
    | exact absurd h (by decide)
    | (refine ⟨?_, ?_⟩ <;>
        simp [execute, fetchOp, get_address, fetch_byte, busRead, read_byte,
          write_byte, busWrite, push_to_stack, pull_from_stack, addCycles,
          set_accumulator, set_index_x, set_index_y, set_zero_and_negative_flag,
          withFlags, branchTaken, decRemain, updateMem, wsub16, wsub8, wadd8,
          Nat.add_eq_zero] <;>
        (try split_ifs) <;> (try dsimp only) <;> omega)


set_option maxRecDepth 8192 in
/-- Every entry of the dispatch table is a valid instruction/mode
pair. -/
theorem opcodes_valid :
    OPCODES.all (fun e =>
      match e with
      | some o => validPair o.ins o.mode
      | none => true) = true := by
  decide

/-- A successful dispatch lookup is a table member. -/
theorem lookup_mem {b : Nat} {o : OpCode} (h : lookupOpcode b = some o) :
    some o ∈ OPCODES := by
  unfold lookupOpcode at h
  rw [List.getD_eq_getElem?_getD] at h
  cases he : OPCODES[b]? with
  | none => rw [he] at h; simp at h
  | some e =>
      rw [he] at h
      simp at h
      rw [h] at he
      exact List.getElem?_mem he

set_option maxHeartbeats 1000000 in
/-- **C10.**  From an idle tick (`remain_cycles = 0`), fetching and
executing any opcode byte that has a dispatch entry leaves
`remain_cycles ≥ 1`, and the whole of `CPU::step` succeeds: neither the
unconditional `remain_cycles -= 1` at the end of `step` nor the
internal decrements inside the JSR and RTI arms (both modelled as the
fallible `decRemain`) can underflow. -/
theorem claim_C10_step_no_underflow (s : Machine) (o : OpCode)
    (hidle : s.cpu.remain_cycles = 0)
    (ho : lookupOpcode (s.mem s.cpu.pc) = some o) :
    1 ≤ ((execute o.ins o.mode (fetch_byte s).2).getD (fetch_byte s).2).cpu.remain_cycles ∧
    (step s).isSome = true := by
  have hv : validPair o.ins o.mode = true := by
    have hm := lookup_mem ho
    have hall := List.all_eq_true.mp opcodes_valid _ hm
    simpa using hall
  have hfr : (fetch_byte s).2.cpu.remain_cycles = 1 := by
    simp [fetch_byte, busRead, hidle]
  have hex := execute_ok o.ins o.mode (fetch_byte s).2 hv
  obtain ⟨s2, hs2⟩ := Option.isSome_iff_exists.mp hex.1
  have hrem : 1 ≤ s2.cpu.remain_cycles := by
    have h2 := hex.2
    rw [hs2, Option.getD_some] at h2
    omega
  constructor
  · rw [hs2, Option.getD_some]
    exact hrem
  · have hnz : ¬(s2.cpu.remain_cycles = 0) := by omega
    have ho2 : lookupOpcode (fetch_byte s).1 = some o := ho
    simp only [step, hidle, if_pos]
    simp [ho2, hs2, decRemain, hnz]


def c10state : Machine :=
  { cpu := { pc := 0x8000, sp := 0xFF, a := 0, x := 0, y := 0,
             flags := StatusFlag.default, remain_cycles := 0, total_cycles := 0 },
    mem := fun _ => 0xEA, trace := [] }

/-- Witness for C10: an idle machine about to fetch opcode `0xEA`
(NOP) steps successfully. -/
theorem claim_C10_step_no_underflow_witness :
    c10state.cpu.remain_cycles = 0 ∧
    lookupOpcode (c10state.mem c10state.cpu.pc) =
      some ⟨Instruction.NOP, AddressingMode.Implied, Officiality.Official⟩ ∧
    (step c10state).isSome = true :=
  ⟨rfl, by decide,
    (claim_C10_step_no_underflow c10state
      ⟨Instruction.NOP, AddressingMode.Implied, Officiality.Official⟩
      rfl (by decide)).2⟩

end Emu6502
